import Mathlib

/-! SpacemiT PMIC power-key driver (`drivers/input/misc/spacemit-pwrkey.c`)

A shallow embedding of the driver: the two file-scope flags become an explicit
`State`, every kernel call a handler makes becomes an entry of an effect list,
and the results of the kernel calls made by probe become inputs (`ProbeEnv`).
The spinlock serialises the handlers, so a run of the driver is a sequence of
handler invocations, each one executed atomically.
-/

namespace SpacemitPwrkey

/-! ## Constants of the kernel headers used by the driver -/

/-- Modelled from the spec: the key code `KEY_POWER`; its header
`input-event-codes.h` is not among the sources, the value is the kernel's. -/
def KEY_POWER : Nat := 116

/-- Modelled from the spec: the event type `EV_KEY`; its header
`input-event-codes.h` is not among the sources, the value is the kernel's. -/
def EV_KEY : Nat := 1

/-- Modelled from the spec: the bus type `BUS_HOST`; its header `input.h` is
not among the sources, the value is the kernel's. -/
def BUS_HOST : Nat := 0x19

/-- Modelled from the spec: the value `IRQ_HANDLED` of `irqreturn_t`; its
header `irqreturn.h` is not among the sources, the value is the kernel's. -/
def IRQ_HANDLED : Int := 1

/-- Modelled from the spec: the error number `ENOMEM`; its header
`errno-base.h` is not among the sources, the value is the kernel's. -/
def ENOMEM : Int := 12

/-- Modelled from the spec: the flag `IRQF_TRIGGER_NONE`; its header
`interrupt.h` is not among the sources, the value is the kernel's. -/
def IRQF_TRIGGER_NONE : Nat := 0

/-- Modelled from the spec: the flag `IRQF_ONESHOT`; its header `interrupt.h`
is not among the sources, the value is the kernel's. -/
def IRQF_ONESHOT : Nat := 0x2000

/-- Modelled from the spec: the notifier mode `PM_HIBERNATION_PREPARE`; its
header `suspend.h` is not among the sources, the value is the kernel's. -/
def PM_HIBERNATION_PREPARE : Nat := 1

/-- Modelled from the spec: the notifier mode `PM_POST_HIBERNATION`; its
header `suspend.h` is not among the sources, the value is the kernel's. -/
def PM_POST_HIBERNATION : Nat := 2

/-- Modelled from the spec: the notifier mode `PM_SUSPEND_PREPARE`; its
header `suspend.h` is not among the sources, the value is the kernel's. -/
def PM_SUSPEND_PREPARE : Nat := 3

/-- Modelled from the spec: the notifier mode `PM_POST_SUSPEND`; its header
`suspend.h` is not among the sources, the value is the kernel's. -/
def PM_POST_SUSPEND : Nat := 4

/-! ## Data model -/

/-- The fields of `struct input_dev` the driver touches; `parent` stands for
`dev.parent`, a device identified by a number. -/
structure input_dev where
  name : String
  phys : String
  bustype : Nat
  parent : Nat
deriving DecidableEq, Repr

/-- The file-scope variables `report_event` and `fall_triggered` (C `int`). -/
structure State where
  report_event : Int
  fall_triggered : Int
deriving DecidableEq, Repr

/-- Kernel calls a handler makes, in the order it makes them. -/
inductive Effect where
  | input_report_key (dev : input_dev) (code : Nat) (value : Int)
  | input_sync (dev : input_dev)
  | pm_stay_awake (dev : Nat)
  | pm_relax (dev : Nat)
deriving DecidableEq, Repr

/-- What one handler invocation yields: its return value, the flags it leaves
and the kernel calls it made. -/
structure Outcome where
  ret : Int
  state : State
  effects : List Effect
deriving DecidableEq, Repr

/-! ## The handlers -/

/-- Falling edge: `pwrkey_fall_irq`. -/
def pwrkey_fall_irq (_irq : Int) (pwr : input_dev) (s : State) : Outcome :=
  if s.report_event ≠ 0 then
    { ret := IRQ_HANDLED
      state := { s with fall_triggered := 1 }
      effects := [Effect.input_report_key pwr KEY_POWER 1, Effect.input_sync pwr,
                  Effect.pm_stay_awake pwr.parent] }
  else
    { ret := IRQ_HANDLED, state := s, effects := [] }

/-- Rising edge: `pwrkey_rise_irq`. -/
def pwrkey_rise_irq (_irq : Int) (pwr : input_dev) (s : State) : Outcome :=
  if s.fall_triggered ≠ 0 then
    { ret := IRQ_HANDLED
      state := { s with fall_triggered := 0 }
      effects := [Effect.input_report_key pwr KEY_POWER 0, Effect.input_sync pwr,
                  Effect.pm_relax pwr.parent] }
  else
    { ret := IRQ_HANDLED, state := s, effects := [] }

/-- Short press: `pwrkey_skey_irq`. -/
def pwrkey_skey_irq (_irq : Int) (_pwr : input_dev) (s : State) : Outcome :=
  { ret := IRQ_HANDLED, state := s, effects := [] }

/-- Long press: `pwrkey_lkey_irq`. -/
def pwrkey_lkey_irq (_irq : Int) (_pwr : input_dev) (s : State) : Outcome :=
  { ret := IRQ_HANDLED, state := s, effects := [] }

/-- The PM notifier callback `pwrk_pm_notify`; `mode` is an `unsigned long`. -/
def pwrk_pm_notify (mode : Nat) (s : State) : Outcome :=
  if mode = PM_SUSPEND_PREPARE then
    { ret := 0, state := { s with report_event := 0 }, effects := [] }
  else if mode = PM_POST_SUSPEND then
    { ret := 0, state := { s with report_event := 1 }, effects := [] }
  else
    { ret := 0, state := s, effects := [] }

/-! ## Handler sequences -/

/-- One invocation of a handler of the driver. -/
inductive Call where
  | fall_irq (irq : Int)
  | rise_irq (irq : Int)
  | skey_irq (irq : Int)
  | lkey_irq (irq : Int)
  | pm_notify (mode : Nat)
deriving DecidableEq, Repr

/-- Run one invocation; all four interrupt handlers were requested with the
same `dev_id`, the input device `pwr`. -/
def step (pwr : input_dev) (s : State) : Call → Outcome
  | Call.fall_irq irq => pwrkey_fall_irq irq pwr s
  | Call.rise_irq irq => pwrkey_rise_irq irq pwr s
  | Call.skey_irq irq => pwrkey_skey_irq irq pwr s
  | Call.lkey_irq irq => pwrkey_lkey_irq irq pwr s
  | Call.pm_notify mode => pwrk_pm_notify mode s

/-- The flags left by a sequence of invocations. -/
def runState (pwr : input_dev) (s : State) : List Call → State
  | [] => s
  | c :: cs => runState pwr (step pwr s c).state cs

/-- The kernel calls made by a sequence of invocations, oldest first. -/
def runEffects (pwr : input_dev) (s : State) : List Call → List Effect
  | [] => []
  | c :: cs => (step pwr s c).effects ++ runEffects pwr (step pwr s c).state cs

/-- The short-press and long-press invocations. -/
def Call.isKeyNoop : Call → Bool
  | Call.skey_irq _ => true
  | Call.lkey_irq _ => true
  | _ => false

/-- The values of the `KEY_POWER` events of an effect list, oldest first. -/
def keyValues : List Effect → List Int
  | [] => []
  | Effect.input_report_key _ code value :: es =>
      if code = KEY_POWER then value :: keyValues es else keyValues es
  | _ :: es => keyValues es

/-- The wake-source calls of an effect list, oldest first: `true` for
`pm_stay_awake`, `false` for `pm_relax`. -/
def wakeCalls : List Effect → List Bool
  | [] => []
  | Effect.pm_stay_awake _ :: es => true :: wakeCalls es
  | Effect.pm_relax _ :: es => false :: wakeCalls es
  | _ :: es => wakeCalls es

/-- An effect that is a `KEY_POWER` report (press or release). -/
def Effect.isKeyPower : Effect → Bool
  | Effect.input_report_key _ code _ => decide (code = KEY_POWER)
  | _ => false

/-- An effect that is a `KEY_POWER` press report (value 1). -/
def Effect.isPress : Effect → Bool
  | Effect.input_report_key _ code value => decide (code = KEY_POWER) && decide (value = 1)
  | _ => false

/-! ## Probe -/

/-- The interrupt handlers of the driver, as the function pointers handed to
`devm_request_any_context_irq`. -/
inductive irq_handler where
  | pwrkey_rise_irq
  | pwrkey_fall_irq
  | pwrkey_skey_irq
  | pwrkey_lkey_irq
deriving DecidableEq, Repr

/-- The function a handler pointer designates. -/
def irq_handler.run : irq_handler → Int → input_dev → State → Outcome
  | irq_handler.pwrkey_rise_irq => SpacemitPwrkey.pwrkey_rise_irq
  | irq_handler.pwrkey_fall_irq => SpacemitPwrkey.pwrkey_fall_irq
  | irq_handler.pwrkey_skey_irq => SpacemitPwrkey.pwrkey_skey_irq
  | irq_handler.pwrkey_lkey_irq => SpacemitPwrkey.pwrkey_lkey_irq

/-- The notifier callbacks of the driver, as the pointer stored in
`pm_notify.notifier_call`. -/
inductive notifier_fn where
  | pwrk_pm_notify
deriving DecidableEq, Repr

/-- The function a notifier pointer designates. -/
def notifier_fn.run : notifier_fn → Nat → State → Outcome
  | notifier_fn.pwrk_pm_notify => SpacemitPwrkey.pwrk_pm_notify

/-- The platform device handed to probe; `dev` identifies `&pdev->dev`. -/
structure platform_device where
  dev : Nat
deriving DecidableEq, Repr

/-- The results of the kernel calls probe makes, taken as inputs.
`devm_input_allocate_device` is `none` for `NULL`; `platform_get_irq` is
indexed by the resource number; `devm_request_any_context_irq` by the IRQ
number and the handler requested on it. -/
structure ProbeEnv where
  devm_input_allocate_device : Option input_dev
  platform_get_irq : Nat → Int
  devm_request_any_context_irq : Int → irq_handler → Int
  input_register_device : Int
  register_pm_notifier : Int

/-- Kernel calls probe makes, with the arguments that matter. -/
inductive KCall where
  | devm_input_allocate_device (dev : Nat)
  | dev_err (dev : Nat) (fmt : String) (arg : Option Int)
  | input_set_capability (dev : input_dev) (type : Nat) (code : Nat)
  | platform_get_irq (dev : Nat) (num : Nat)
  | devm_request_any_context_irq (irq : Int) (handler : irq_handler) (irqflags : Nat)
      (devname : String) (dev_id : input_dev)
  | input_register_device (dev : input_dev)
  | platform_set_drvdata (dev : Nat) (data : input_dev)
  | dev_pm_set_wake_irq (dev : Nat) (irq : Int)
  | device_init_wakeup (dev : Nat) (enable : Bool)
  | spin_lock_init
  | register_pm_notifier (notifier_call : notifier_fn)
deriving DecidableEq, Repr

/-- What probe yields: its return value, the flags it leaves and the kernel
calls it made, oldest first. -/
structure ProbeResult where
  ret : Int
  state : State
  calls : List KCall
deriving DecidableEq, Repr

/-- The input device after probe has filled in `name`, `phys` and
`id.bustype`. -/
def configure (pwr : input_dev) : input_dev :=
  { pwr with name := "spacemit pwrkey", phys := "spacemit_pwrkey/input0", bustype := BUS_HOST }

/-- The flags of the requests: `IRQF_TRIGGER_NONE | IRQF_ONESHOT`. -/
def irqflags : Nat := IRQF_TRIGGER_NONE ||| IRQF_ONESHOT

/-- The driver's `spacemit_pwrkey_probe`. The flags it finds (`_s`) are
overwritten first. -/
def spacemit_pwrkey_probe (env : ProbeEnv) (pdev : platform_device) (_s : State) :
    ProbeResult :=
  let st : State := { report_event := 1, fall_triggered := 0 }
  let c0 := [KCall.devm_input_allocate_device pdev.dev]
  match env.devm_input_allocate_device with
  | none =>
    { ret := -ENOMEM, state := st,
      calls := c0 ++ [KCall.dev_err pdev.dev "Can't allocate power button\n" none] }
  | some raw =>
    let pwr := configure raw
    let c1 := c0 ++ [KCall.input_set_capability pwr EV_KEY KEY_POWER]
    let rise_irq := env.platform_get_irq 0
    let c2 := c1 ++ [KCall.platform_get_irq pdev.dev 0]
    if rise_irq < 0 then { ret := rise_irq, state := st, calls := c2 } else
    let fall_irq := env.platform_get_irq 1
    let c3 := c2 ++ [KCall.platform_get_irq pdev.dev 1]
    if fall_irq < 0 then { ret := fall_irq, state := st, calls := c3 } else
    let s_key_irq := env.platform_get_irq 2
    let c4 := c3 ++ [KCall.platform_get_irq pdev.dev 2]
    if s_key_irq < 0 then { ret := s_key_irq, state := st, calls := c4 } else
    let l_key_irq := env.platform_get_irq 3
    let c5 := c4 ++ [KCall.platform_get_irq pdev.dev 3]
    if l_key_irq < 0 then { ret := l_key_irq, state := st, calls := c5 } else
    let err1 := env.devm_request_any_context_irq rise_irq irq_handler.pwrkey_rise_irq
    let c6 := c5 ++ [KCall.devm_request_any_context_irq rise_irq irq_handler.pwrkey_rise_irq
                      irqflags "spacemit_pwrkey_rise" pwr]
    if err1 < 0 then
      { ret := err1, state := st,
        calls := c6 ++ [KCall.dev_err pdev.dev "Can't register rise irq: %d\n" (some err1)] }
    else
    let err2 := env.devm_request_any_context_irq fall_irq irq_handler.pwrkey_fall_irq
    let c7 := c6 ++ [KCall.devm_request_any_context_irq fall_irq irq_handler.pwrkey_fall_irq
                      irqflags "spacemit_pwrkey_fall" pwr]
    if err2 < 0 then
      { ret := err2, state := st,
        calls := c7 ++ [KCall.dev_err pdev.dev "Can't register fall irq: %d\n" (some err2)] }
    else
    let err3 := env.devm_request_any_context_irq s_key_irq irq_handler.pwrkey_skey_irq
    let c8 := c7 ++ [KCall.devm_request_any_context_irq s_key_irq irq_handler.pwrkey_skey_irq
                      irqflags "spacemit_pwrkey_skey" pwr]
    if err3 < 0 then
      { ret := err3, state := st,
        calls := c8 ++ [KCall.dev_err pdev.dev "Can't register skey irq: %d\n" (some err3)] }
    else
    let err4 := env.devm_request_any_context_irq l_key_irq irq_handler.pwrkey_lkey_irq
    let c9 := c8 ++ [KCall.devm_request_any_context_irq l_key_irq irq_handler.pwrkey_lkey_irq
                      irqflags "spacemit_pwrkey_lkey" pwr]
    if err4 < 0 then
      { ret := err4, state := st,
        calls := c9 ++ [KCall.dev_err pdev.dev "Can't register lkey irq: %d\n" (some err4)] }
    else
    let err5 := env.input_register_device
    let c10 := c9 ++ [KCall.input_register_device pwr]
    if err5 ≠ 0 then
      { ret := err5, state := st,
        calls := c10 ++ [KCall.dev_err pdev.dev "Can't register power button: %d\n" (some err5)] }
    else
    let c11 := c10 ++ [KCall.platform_set_drvdata pdev.dev pwr,
                       KCall.dev_pm_set_wake_irq pdev.dev fall_irq,
                       KCall.device_init_wakeup pdev.dev true,
                       KCall.spin_lock_init,
                       KCall.register_pm_notifier notifier_fn.pwrk_pm_notify]
    let err6 := env.register_pm_notifier
    if err6 ≠ 0 then
      { ret := err6, state := st,
        calls := c11 ++ [KCall.dev_err pdev.dev "Register pm notifier failed\n" none] }
    else
      { ret := 0, state := st, calls := c11 }

/-! ## Device-tree match table -/

/-- The string fields of `struct of_device_id`. -/
structure of_device_id where
  name : String
  type : String
  compatible : String
deriving DecidableEq, Repr

/-- The `{ }` entry: every field empty. -/
def of_device_id.empty : of_device_id :=
  { name := "", type := "", compatible := "" }

/-- The table `spacemit_pwr_key_id_table`. -/
def spacemit_pwr_key_id_table : List of_device_id :=
  [ { of_device_id.empty with compatible := "pmic,pwrkey,spm8821" },
    of_device_id.empty ]

/-- Modelled from the spec: the matcher of the device-tree core is not among
the sources; this is the string-equality match the specification names. The entries
are tried in order up to the empty sentinel, which ends the table and is not
itself tried. -/
def tableMatches : List of_device_id → String → Bool
  | [], _ => false
  | e :: es, c =>
      if e = of_device_id.empty then false
      else decide (e.compatible = c) || tableMatches es c

/-! ## Sample inputs -/

/-- An input device as `devm_input_allocate_device` may return it. -/
def rawDev : input_dev :=
  { name := "", phys := "", bustype := 0, parent := 7 }

/-- A platform device. -/
def samplePdev : platform_device := { dev := 7 }

/-- An environment in which every kernel call of probe succeeds. -/
def okEnv : ProbeEnv :=
  { devm_input_allocate_device := some rawDev
    platform_get_irq := fun n => 40 + n
    devm_request_any_context_irq := fun _ _ => 0
    input_register_device := 0
    register_pm_notifier := 0 }

/-- The invariant of the flags against the calls made so far:
`fall_triggered` is 1 exactly when the latest `KEY_POWER` event is a press,
and exactly when the latest wake-source call is `pm_stay_awake`; the
`KEY_POWER` events do not start with a release and have no release directly
after a release; the wake-source calls do not start with `pm_relax` and every
`pm_relax` comes directly after a `pm_stay_awake`; both flags are 0 or 1. -/
def FlagsMatchHistory (s : State) (es : List Effect) : Prop :=
  (s.fall_triggered = 1 ↔ (keyValues es).getLast? = some 1) ∧
  (s.fall_triggered = 1 ↔ (wakeCalls es).getLast? = some true) ∧
  (keyValues es).head? ≠ some 0 ∧
  List.Chain' (fun a b => ¬ (a = 0 ∧ b = 0)) (keyValues es) ∧
  (wakeCalls es).head? ≠ some false ∧
  List.Chain' (fun a b => b = false → a = true) (wakeCalls es) ∧
  (s.fall_triggered = 0 ∨ s.fall_triggered = 1) ∧
  (s.report_event = 0 ∨ s.report_event = 1)

/-- The handler probe requests on the IRQ resolved at platform index `k`. -/
def handlerAt : Nat → irq_handler
  | 0 => irq_handler.pwrkey_rise_irq
  | 1 => irq_handler.pwrkey_fall_irq
  | 2 => irq_handler.pwrkey_skey_irq
  | _ => irq_handler.pwrkey_lkey_irq

/-- The message probe logs when the request for index `k` fails. -/
def requestErr : Nat → String
  | 0 => "Can't register rise irq: %d\n"
  | 1 => "Can't register fall irq: %d\n"
  | 2 => "Can't register skey irq: %d\n"
  | _ => "Can't register lkey irq: %d\n"

/-- The result of the request probe makes for platform index `k`. -/
def ProbeEnv.request (env : ProbeEnv) (k : Nat) : Int :=
  env.devm_request_any_context_irq (env.platform_get_irq k) (handlerAt k)

/-- The kernel calls of a probe in which no step fails, in the order of the
source. -/
def okCalls (env : ProbeEnv) (pdev : platform_device) (raw : input_dev) : List KCall :=
  [ KCall.devm_input_allocate_device pdev.dev,
    KCall.input_set_capability (configure raw) EV_KEY KEY_POWER,
    KCall.platform_get_irq pdev.dev 0,
    KCall.platform_get_irq pdev.dev 1,
    KCall.platform_get_irq pdev.dev 2,
    KCall.platform_get_irq pdev.dev 3,
    KCall.devm_request_any_context_irq (env.platform_get_irq 0) irq_handler.pwrkey_rise_irq
      irqflags "spacemit_pwrkey_rise" (configure raw),
    KCall.devm_request_any_context_irq (env.platform_get_irq 1) irq_handler.pwrkey_fall_irq
      irqflags "spacemit_pwrkey_fall" (configure raw),
    KCall.devm_request_any_context_irq (env.platform_get_irq 2) irq_handler.pwrkey_skey_irq
      irqflags "spacemit_pwrkey_skey" (configure raw),
    KCall.devm_request_any_context_irq (env.platform_get_irq 3) irq_handler.pwrkey_lkey_irq
      irqflags "spacemit_pwrkey_lkey" (configure raw),
    KCall.input_register_device (configure raw),
    KCall.platform_set_drvdata pdev.dev (configure raw),
    KCall.dev_pm_set_wake_irq pdev.dev (env.platform_get_irq 1),
    KCall.device_init_wakeup pdev.dev true,
    KCall.spin_lock_init,
    KCall.register_pm_notifier notifier_fn.pwrk_pm_notify ]

/-- An environment in which `platform_get_irq` fails at index 1. -/
def failEnv : ProbeEnv :=
  { okEnv with platform_get_irq := fun n => if n = 1 then -6 else 40 + n }

/-! ## Basic facts on sequences -/

theorem runState_append (pwr : input_dev) (s : State) (xs ys : List Call) :
    runState pwr s (xs ++ ys) = runState pwr (runState pwr s xs) ys := by
  induction xs generalizing s with
  | nil => rfl
  | cons c cs ih => simp [runState, ih]

theorem runEffects_append (pwr : input_dev) (s : State) (xs ys : List Call) :
    runEffects pwr s (xs ++ ys)
      = runEffects pwr s xs ++ runEffects pwr (runState pwr s xs) ys := by
  induction xs generalizing s with
  | nil => rfl
  | cons c cs ih => simp [runState, runEffects, ih]

theorem step_noop (pwr : input_dev) (s : State) (c : Call) (h : c.isKeyNoop = true) :
    (step pwr s c).state = s ∧ (step pwr s c).effects = [] := by
  cases c <;> simp_all [Call.isKeyNoop, step, pwrkey_skey_irq, pwrkey_lkey_irq]

theorem probe_state (env : ProbeEnv) (pdev : platform_device) (s : State) :
    (spacemit_pwrkey_probe env pdev s).state = { report_event := 1, fall_triggered := 0 } := by
  unfold spacemit_pwrkey_probe
  cases env.devm_input_allocate_device with
  | none => rfl
  | some raw =>
    simp only [apply_ite ProbeResult.state, ite_self]

theorem post_ne_prepare : PM_POST_SUSPEND ≠ PM_SUSPEND_PREPARE := by decide

theorem keyValues_append (xs ys : List Effect) :
    keyValues (xs ++ ys) = keyValues xs ++ keyValues ys := by
  induction xs with
  | nil => rfl
  | cons e es ih =>
    cases e with
    | input_report_key d code v =>
      by_cases h : code = KEY_POWER <;> simp [keyValues, h, ih]
    | input_sync d => simpa [keyValues] using ih
    | pm_stay_awake d => simpa [keyValues] using ih
    | pm_relax d => simpa [keyValues] using ih

theorem wakeCalls_append (xs ys : List Effect) :
    wakeCalls (xs ++ ys) = wakeCalls xs ++ wakeCalls ys := by
  induction xs with
  | nil => rfl
  | cons e es ih =>
    cases e <;> simp [wakeCalls, ih]

/-- A run that starts with `report_event = 1` keeps it as long as no
`PM_SUSPEND_PREPARE` notification is delivered. -/
theorem report_event_kept (pwr : input_dev) (s : State) (cs : List Call)
    (hs : s.report_event = 1) (h : Call.pm_notify PM_SUSPEND_PREPARE ∉ cs) :
    (runState pwr s cs).report_event = 1 := by
  induction cs generalizing s with
  | nil => exact hs
  | cons c cs ih =>
    have hc : Call.pm_notify PM_SUSPEND_PREPARE ≠ c := fun e => h (e ▸ List.mem_cons_self _ _)
    have ht : Call.pm_notify PM_SUSPEND_PREPARE ∉ cs := fun e => h (List.mem_cons_of_mem _ e)
    apply ih _ _ ht
    cases c with
    | fall_irq irq => simp [step, pwrkey_fall_irq, hs]
    | rise_irq irq =>
      by_cases hf : s.fall_triggered = 0 <;> simp [step, pwrkey_rise_irq, hs, hf]
    | skey_irq irq => simpa [step, pwrkey_skey_irq] using hs
    | lkey_irq irq => simpa [step, pwrkey_lkey_irq] using hs
    | pm_notify mode =>
      have hm : mode ≠ PM_SUSPEND_PREPARE := fun e => hc (e ▸ rfl)
      by_cases h2 : mode = PM_POST_SUSPEND
      · subst h2; simp [step, pwrk_pm_notify, post_ne_prepare]
      · simp [step, pwrk_pm_notify, hm, h2, hs]

/-- With both flags zero and no `PM_POST_SUSPEND` notification, no handler
makes a call. -/
theorem suspended_quiet (pwr : input_dev) (s : State) (cs : List Call)
    (hr : s.report_event = 0) (hf : s.fall_triggered = 0)
    (h : Call.pm_notify PM_POST_SUSPEND ∉ cs) :
    runEffects pwr s cs = [] := by
  induction cs generalizing s with
  | nil => rfl
  | cons c cs ih =>
    have hc : Call.pm_notify PM_POST_SUSPEND ≠ c := fun e => h (e ▸ List.mem_cons_self _ _)
    have ht : Call.pm_notify PM_POST_SUSPEND ∉ cs := fun e => h (List.mem_cons_of_mem _ e)
    cases c with
    | fall_irq irq =>
      have e : step pwr s (Call.fall_irq irq) = { ret := IRQ_HANDLED, state := s, effects := [] } := by
        simp [step, pwrkey_fall_irq, hr]
      simp [runEffects, e, ih s hr hf ht]
    | rise_irq irq =>
      have e : step pwr s (Call.rise_irq irq) = { ret := IRQ_HANDLED, state := s, effects := [] } := by
        simp [step, pwrkey_rise_irq, hf]
      simp [runEffects, e, ih s hr hf ht]
    | skey_irq irq => simp [runEffects, step, pwrkey_skey_irq, ih s hr hf ht]
    | lkey_irq irq => simp [runEffects, step, pwrkey_lkey_irq, ih s hr hf ht]
    | pm_notify mode =>
      have hm : mode ≠ PM_POST_SUSPEND := fun e => hc (e ▸ rfl)
      have e : (step pwr s (Call.pm_notify mode)).effects = [] ∧
          (step pwr s (Call.pm_notify mode)).state.report_event = 0 ∧
          (step pwr s (Call.pm_notify mode)).state.fall_triggered = 0 := by
        by_cases h1 : mode = PM_SUSPEND_PREPARE <;> simp [step, pwrk_pm_notify, hm, h1, hr, hf]
      simp [runEffects, e.1, ih _ e.2.1 e.2.2 ht]

/-- With `report_event` zero and no `PM_POST_SUSPEND` notification, the only
calls made are those of one release. -/
theorem suspended_effects (pwr : input_dev) (s : State) (cs : List Call)
    (hr : s.report_event = 0) (h : Call.pm_notify PM_POST_SUSPEND ∉ cs) :
    runEffects pwr s cs = [] ∨
    runEffects pwr s cs
      = [Effect.input_report_key pwr KEY_POWER 0, Effect.input_sync pwr,
         Effect.pm_relax pwr.parent] := by
  induction cs generalizing s with
  | nil => exact Or.inl rfl
  | cons c cs ih =>
    have hc : Call.pm_notify PM_POST_SUSPEND ≠ c := fun e => h (e ▸ List.mem_cons_self _ _)
    have ht : Call.pm_notify PM_POST_SUSPEND ∉ cs := fun e => h (List.mem_cons_of_mem _ e)
    cases c with
    | fall_irq irq =>
      have e : step pwr s (Call.fall_irq irq) = { ret := IRQ_HANDLED, state := s, effects := [] } := by
        simp [step, pwrkey_fall_irq, hr]
      simpa [runEffects, e] using ih s hr ht
    | rise_irq irq =>
      by_cases hf : s.fall_triggered = 0
      · exact Or.inl (suspended_quiet pwr s _ hr hf h)
      · right
        have q := suspended_quiet pwr { s with fall_triggered := 0 } cs hr rfl ht
        simp [runEffects, step, pwrkey_rise_irq, hf, q]
    | skey_irq irq => simpa [runEffects, step, pwrkey_skey_irq] using ih s hr ht
    | lkey_irq irq => simpa [runEffects, step, pwrkey_lkey_irq] using ih s hr ht
    | pm_notify mode =>
      have hm : mode ≠ PM_POST_SUSPEND := fun e => hc (e ▸ rfl)
      have e : (step pwr s (Call.pm_notify mode)).effects = [] ∧
          (step pwr s (Call.pm_notify mode)).state.report_event = 0 := by
        by_cases h1 : mode = PM_SUSPEND_PREPARE <;> simp [step, pwrk_pm_notify, hm, h1, hr]
      simpa [runEffects, e.1] using ih _ e.2 ht

theorem step_shape (pwr : input_dev) (s : State) (c : Call) :
    ((step pwr s c).effects = [] ∧
      (step pwr s c).state.fall_triggered = s.fall_triggered ∧
      ((step pwr s c).state.report_event = s.report_event ∨
       (step pwr s c).state.report_event = 0 ∨ (step pwr s c).state.report_event = 1)) ∨
    ((step pwr s c).effects
        = [Effect.input_report_key pwr KEY_POWER 1, Effect.input_sync pwr,
           Effect.pm_stay_awake pwr.parent] ∧
      (step pwr s c).state.fall_triggered = 1 ∧
      (step pwr s c).state.report_event = s.report_event) ∨
    ((step pwr s c).effects
        = [Effect.input_report_key pwr KEY_POWER 0, Effect.input_sync pwr,
           Effect.pm_relax pwr.parent] ∧
      s.fall_triggered ≠ 0 ∧
      (step pwr s c).state.fall_triggered = 0 ∧
      (step pwr s c).state.report_event = s.report_event) := by
  cases c with
  | fall_irq irq =>
    by_cases h : s.report_event = 0 <;> simp [step, pwrkey_fall_irq, h]
  | rise_irq irq =>
    by_cases h : s.fall_triggered = 0 <;> simp [step, pwrkey_rise_irq, h]
  | skey_irq irq => simp [step, pwrkey_skey_irq]
  | lkey_irq irq => simp [step, pwrkey_lkey_irq]
  | pm_notify mode =>
    by_cases h1 : mode = PM_SUSPEND_PREPARE
    · simp [step, pwrk_pm_notify, h1]
    · by_cases h2 : mode = PM_POST_SUSPEND
      · subst h2; simp [step, pwrk_pm_notify, post_ne_prepare]
      · simp [step, pwrk_pm_notify, h1, h2]

theorem inv_run (pwr : input_dev) (cs : List Call) :
    FlagsMatchHistory (runState pwr { report_event := 1, fall_triggered := 0 } cs)
      (runEffects pwr { report_event := 1, fall_triggered := 0 } cs) := by
  induction cs using List.reverseRecOn with
  | nil => simp [FlagsMatchHistory, runState, runEffects, keyValues, wakeCalls]
  | append_singleton cs c ih =>
    rw [runState_append, runEffects_append]
    simp only [runState, runEffects, List.append_nil]
    generalize runState pwr { report_event := 1, fall_triggered := 0 } cs = S at ih ⊢
    generalize runEffects pwr { report_event := 1, fall_triggered := 0 } cs = E at ih ⊢
    obtain ⟨i1, i2, i3, i4, i5, i6, i7, i8⟩ := ih
    unfold FlagsMatchHistory
    rcases step_shape pwr S c with ⟨e, f, r⟩ | ⟨e, f, r⟩ | ⟨e, nz, f, r⟩
    · rw [e, List.append_nil]
      refine ⟨by rw [f]; exact i1, by rw [f]; exact i2, i3, i4, i5, i6, by rw [f]; exact i7, ?_⟩
      rcases r with r | r | r
      · rw [r]; exact i8
      · exact Or.inl r
      · exact Or.inr r
    · rw [e, keyValues_append, wakeCalls_append, f, r]
      simp only [keyValues, wakeCalls, if_true]
      refine ⟨by simp, by simp, ?_, ?_, ?_, ?_, by simp, i8⟩
      · cases hk : keyValues E with
        | nil => simp
        | cons a l => rw [hk] at i3; simpa using i3
      · rw [List.chain'_append]
        exact ⟨i4, by simp, by simp⟩
      · cases hk : wakeCalls E with
        | nil => simp
        | cons a l => rw [hk] at i5; simpa using i5
      · rw [List.chain'_append]
        exact ⟨i6, by simp, by simp⟩
    · have f1 : S.fall_triggered = 1 := by
        rcases i7 with h | h
        · exact absurd h nz
        · exact h
      have k1 := i1.1 f1
      have w1 := i2.1 f1
      rw [e, keyValues_append, wakeCalls_append, f, r]
      simp only [keyValues, wakeCalls, if_true]
      refine ⟨by simp, by simp, ?_, ?_, ?_, ?_, by simp, i8⟩
      · cases hk : keyValues E with
        | nil => rw [hk] at k1; simp at k1
        | cons a l => rw [hk] at i3; simpa using i3
      · rw [List.chain'_append]
        refine ⟨i4, by simp, ?_⟩
        intro x hx y hy
        rw [k1] at hx
        simp at hx
        simp [← hx]
      · cases hk : wakeCalls E with
        | nil => rw [hk] at w1; simp at w1
        | cons a l => rw [hk] at i5; simpa using i5
      · rw [List.chain'_append]
        refine ⟨i6, by simp, ?_⟩
        intro x hx y hy
        rw [w1] at hx
        simp at hx
        simp [← hx]

theorem probe_get_irq_fails (env : ProbeEnv) (pdev : platform_device) (s : State)
    (raw : input_dev) (ha : env.devm_input_allocate_device = some raw)
    (k : Nat) (hk : k < 4) (hok : ∀ i < k, 0 ≤ env.platform_get_irq i)
    (hf : env.platform_get_irq k < 0) :
    (spacemit_pwrkey_probe env pdev s).ret = env.platform_get_irq k ∧
    (spacemit_pwrkey_probe env pdev s).calls = (okCalls env pdev raw).take (3 + k) := by
  unfold spacemit_pwrkey_probe
  rw [ha]
  interval_cases k
  · simp [hf, okCalls]
  · have h0 := not_lt.mpr (hok 0 (by decide))
    simp [hf, h0, okCalls]
  · have h0 := not_lt.mpr (hok 0 (by decide))
    have h1 := not_lt.mpr (hok 1 (by decide))
    simp [hf, h0, h1, okCalls]
  · have h0 := not_lt.mpr (hok 0 (by decide))
    have h1 := not_lt.mpr (hok 1 (by decide))
    have h2 := not_lt.mpr (hok 2 (by decide))
    simp [hf, h0, h1, h2, okCalls]

theorem probe_alloc_fails (env : ProbeEnv) (pdev : platform_device) (s : State)
    (ha : env.devm_input_allocate_device = none) :
    (spacemit_pwrkey_probe env pdev s).ret = -ENOMEM ∧
    (spacemit_pwrkey_probe env pdev s).calls
      = [KCall.devm_input_allocate_device pdev.dev,
         KCall.dev_err pdev.dev "Can't allocate power button\n" none] := by
  unfold spacemit_pwrkey_probe
  rw [ha]
  simp

theorem irqs_ok (env : ProbeEnv) (h : ∀ i < 4, 0 ≤ env.platform_get_irq i) :
    ¬ env.platform_get_irq 0 < 0 ∧ ¬ env.platform_get_irq 1 < 0 ∧
    ¬ env.platform_get_irq 2 < 0 ∧ ¬ env.platform_get_irq 3 < 0 :=
  ⟨not_lt.mpr (h 0 (by decide)), not_lt.mpr (h 1 (by decide)),
   not_lt.mpr (h 2 (by decide)), not_lt.mpr (h 3 (by decide))⟩

theorem requests_ok (env : ProbeEnv) (h : ∀ i < 4, 0 ≤ env.request i) :
    ¬ env.devm_request_any_context_irq (env.platform_get_irq 0)
        irq_handler.pwrkey_rise_irq < 0 ∧
    ¬ env.devm_request_any_context_irq (env.platform_get_irq 1)
        irq_handler.pwrkey_fall_irq < 0 ∧
    ¬ env.devm_request_any_context_irq (env.platform_get_irq 2)
        irq_handler.pwrkey_skey_irq < 0 ∧
    ¬ env.devm_request_any_context_irq (env.platform_get_irq 3)
        irq_handler.pwrkey_lkey_irq < 0 :=
  ⟨not_lt.mpr (h 0 (by decide)), not_lt.mpr (h 1 (by decide)),
   not_lt.mpr (h 2 (by decide)), not_lt.mpr (h 3 (by decide))⟩

theorem probe_request_fails (env : ProbeEnv) (pdev : platform_device) (s : State)
    (raw : input_dev) (ha : env.devm_input_allocate_device = some raw)
    (hg : ∀ i < 4, 0 ≤ env.platform_get_irq i)
    (k : Nat) (hk : k < 4) (hok : ∀ i < k, 0 ≤ env.request i) (hf : env.request k < 0) :
    (spacemit_pwrkey_probe env pdev s).ret = env.request k ∧
    (spacemit_pwrkey_probe env pdev s).calls
      = (okCalls env pdev raw).take (7 + k)
          ++ [KCall.dev_err pdev.dev (requestErr k) (some (env.request k))] := by
  obtain ⟨g0, g1, g2, g3⟩ := irqs_ok env hg
  unfold spacemit_pwrkey_probe
  rw [ha]
  interval_cases k
  · have hf0 : env.devm_request_any_context_irq (env.platform_get_irq 0)
        irq_handler.pwrkey_rise_irq < 0 := hf
    simp [g0, g1, g2, g3, hf0, okCalls, ProbeEnv.request, handlerAt, requestErr]
  · have r0 : ¬ env.devm_request_any_context_irq (env.platform_get_irq 0)
        irq_handler.pwrkey_rise_irq < 0 := not_lt.mpr (hok 0 (by decide))
    have hf1 : env.devm_request_any_context_irq (env.platform_get_irq 1)
        irq_handler.pwrkey_fall_irq < 0 := hf
    simp [g0, g1, g2, g3, r0, hf1, okCalls, ProbeEnv.request, handlerAt, requestErr]
  · have r0 : ¬ env.devm_request_any_context_irq (env.platform_get_irq 0)
        irq_handler.pwrkey_rise_irq < 0 := not_lt.mpr (hok 0 (by decide))
    have r1 : ¬ env.devm_request_any_context_irq (env.platform_get_irq 1)
        irq_handler.pwrkey_fall_irq < 0 := not_lt.mpr (hok 1 (by decide))
    have hf2 : env.devm_request_any_context_irq (env.platform_get_irq 2)
        irq_handler.pwrkey_skey_irq < 0 := hf
    simp [g0, g1, g2, g3, r0, r1, hf2, okCalls, ProbeEnv.request, handlerAt, requestErr]
  · have r0 : ¬ env.devm_request_any_context_irq (env.platform_get_irq 0)
        irq_handler.pwrkey_rise_irq < 0 := not_lt.mpr (hok 0 (by decide))
    have r1 : ¬ env.devm_request_any_context_irq (env.platform_get_irq 1)
        irq_handler.pwrkey_fall_irq < 0 := not_lt.mpr (hok 1 (by decide))
    have r2 : ¬ env.devm_request_any_context_irq (env.platform_get_irq 2)
        irq_handler.pwrkey_skey_irq < 0 := not_lt.mpr (hok 2 (by decide))
    have hf3 : env.devm_request_any_context_irq (env.platform_get_irq 3)
        irq_handler.pwrkey_lkey_irq < 0 := hf
    simp [g0, g1, g2, g3, r0, r1, r2, hf3, okCalls, ProbeEnv.request, handlerAt, requestErr]

theorem probe_register_fails (env : ProbeEnv) (pdev : platform_device) (s : State)
    (raw : input_dev) (ha : env.devm_input_allocate_device = some raw)
    (hg : ∀ i < 4, 0 ≤ env.platform_get_irq i) (hr : ∀ i < 4, 0 ≤ env.request i)
    (hf : env.input_register_device ≠ 0) :
    (spacemit_pwrkey_probe env pdev s).ret = env.input_register_device ∧
    (spacemit_pwrkey_probe env pdev s).calls
      = (okCalls env pdev raw).take 11
          ++ [KCall.dev_err pdev.dev "Can't register power button: %d\n"
                (some env.input_register_device)] := by
  obtain ⟨g0, g1, g2, g3⟩ := irqs_ok env hg
  obtain ⟨r0, r1, r2, r3⟩ := requests_ok env hr
  unfold spacemit_pwrkey_probe
  rw [ha]
  simp [g0, g1, g2, g3, r0, r1, r2, r3, hf, okCalls]

theorem probe_notifier_fails (env : ProbeEnv) (pdev : platform_device) (s : State)
    (raw : input_dev) (ha : env.devm_input_allocate_device = some raw)
    (hg : ∀ i < 4, 0 ≤ env.platform_get_irq i) (hr : ∀ i < 4, 0 ≤ env.request i)
    (hi : env.input_register_device = 0) (hf : env.register_pm_notifier ≠ 0) :
    (spacemit_pwrkey_probe env pdev s).ret = env.register_pm_notifier ∧
    (spacemit_pwrkey_probe env pdev s).calls
      = okCalls env pdev raw
          ++ [KCall.dev_err pdev.dev "Register pm notifier failed\n" none] := by
  obtain ⟨g0, g1, g2, g3⟩ := irqs_ok env hg
  obtain ⟨r0, r1, r2, r3⟩ := requests_ok env hr
  unfold spacemit_pwrkey_probe
  rw [ha]
  simp [g0, g1, g2, g3, r0, r1, r2, r3, hi, hf, okCalls]

theorem probe_ok (env : ProbeEnv) (pdev : platform_device) (s : State)
    (raw : input_dev) (ha : env.devm_input_allocate_device = some raw)
    (hg : ∀ i < 4, 0 ≤ env.platform_get_irq i) (hr : ∀ i < 4, 0 ≤ env.request i)
    (hi : env.input_register_device = 0) (hp : env.register_pm_notifier = 0) :
    (spacemit_pwrkey_probe env pdev s).ret = 0 ∧
    (spacemit_pwrkey_probe env pdev s).calls = okCalls env pdev raw := by
  obtain ⟨g0, g1, g2, g3⟩ := irqs_ok env hg
  obtain ⟨r0, r1, r2, r3⟩ := requests_ok env hr
  unfold spacemit_pwrkey_probe
  rw [ha]
  simp [g0, g1, g2, g3, r0, r1, r2, r3, hi, hp, okCalls]

/-- The first index below `n` at which `f` is negative, when there is one. -/
theorem first_negative (f : Nat → Int) (n : Nat) :
    (∀ i < n, 0 ≤ f i) ∨ ∃ k < n, (∀ i < k, 0 ≤ f i) ∧ f k < 0 := by
  induction n with
  | zero => exact Or.inl (fun i hi => absurd hi (Nat.not_lt_zero i))
  | succ n ih =>
    rcases ih with h | ⟨k, hk, h1, h2⟩
    · by_cases hn : f n < 0
      · exact Or.inr ⟨n, Nat.lt_succ_self n, h, hn⟩
      · left
        intro i hi
        rcases Nat.lt_succ_iff_lt_or_eq.mp hi with h3 | h3
        · exact h i h3
        · rw [h3]; exact not_lt.mp hn
    · exact Or.inr ⟨k, Nat.lt_succ_of_lt hk, h1, h2⟩

theorem probe_ret_zero_iff (env : ProbeEnv) (pdev : platform_device) (s : State) :
    (spacemit_pwrkey_probe env pdev s).ret = 0 ↔
      ∃ raw, env.devm_input_allocate_device = some raw ∧
        (∀ i < 4, 0 ≤ env.platform_get_irq i) ∧ (∀ i < 4, 0 ≤ env.request i) ∧
        env.input_register_device = 0 ∧ env.register_pm_notifier = 0 := by
  constructor
  · intro h
    cases ha : env.devm_input_allocate_device with
    | none =>
      rw [(probe_alloc_fails env pdev s ha).1] at h
      exact absurd h (by decide)
    | some raw =>
      refine ⟨raw, rfl, ?_⟩
      rcases first_negative env.platform_get_irq 4 with hg | ⟨k, hk, h1, h2⟩
      · refine ⟨hg, ?_⟩
        rcases first_negative env.request 4 with hr | ⟨k, hk, h1, h2⟩
        · refine ⟨hr, ?_⟩
          by_cases hi : env.input_register_device = 0
          · refine ⟨hi, ?_⟩
            by_contra hp
            rw [(probe_notifier_fails env pdev s raw ha hg hr hi hp).1] at h
            exact hp h
          · rw [(probe_register_fails env pdev s raw ha hg hr hi).1] at h
            exact absurd h hi
        · rw [(probe_request_fails env pdev s raw ha hg k hk h1 h2).1] at h
          rw [h] at h2
          exact absurd h2 (by decide)
      · rw [(probe_get_irq_fails env pdev s raw ha k hk h1 h2).1] at h
        rw [h] at h2
        exact absurd h2 (by decide)
  · rintro ⟨raw, ha, hg, hr, hi, hp⟩
    exact (probe_ok env pdev s raw ha hg hr hi hp).1

theorem probe_ret_nonpos (env : ProbeEnv) (pdev : platform_device) (s : State)
    (hi : env.input_register_device ≠ 0 → env.input_register_device < 0)
    (hp : env.register_pm_notifier ≠ 0 → env.register_pm_notifier < 0) :
    (spacemit_pwrkey_probe env pdev s).ret ≤ 0 := by
  cases ha : env.devm_input_allocate_device with
  | none =>
    rw [(probe_alloc_fails env pdev s ha).1]
    decide
  | some raw =>
    rcases first_negative env.platform_get_irq 4 with hg | ⟨k, hk, h1, h2⟩
    · rcases first_negative env.request 4 with hr | ⟨k, hk, h1, h2⟩
      · by_cases h0 : env.input_register_device = 0
        · by_cases h3 : env.register_pm_notifier = 0
          · rw [(probe_ok env pdev s raw ha hg hr h0 h3).1]
          · rw [(probe_notifier_fails env pdev s raw ha hg hr h0 h3).1]
            exact le_of_lt (hp h3)
        · rw [(probe_register_fails env pdev s raw ha hg hr h0).1]
          exact le_of_lt (hi h0)
      · rw [(probe_request_fails env pdev s raw ha hg k hk h1 h2).1]
        exact le_of_lt h2
    · rw [(probe_get_irq_fails env pdev s raw ha k hk h1 h2).1]
      exact le_of_lt h2

/-! ## Contracts of the handlers -/

/-- C3: `pwrkey_fall_irq` always returns `IRQ_HANDLED`; with `report_event`
non-zero it makes exactly the calls `input_report_key(pwr, KEY_POWER, 1)`,
`input_sync(pwr)`, `pm_stay_awake(pwr->dev.parent)`, sets `fall_triggered`
to 1 and keeps `report_event`; with `report_event` zero it makes no call and
keeps both flags. -/
theorem pwrkey_fall_irq_contract (irq : Int) (pwr : input_dev) (s : State) :
    (pwrkey_fall_irq irq pwr s).ret = IRQ_HANDLED ∧
    (s.report_event ≠ 0 →
      (pwrkey_fall_irq irq pwr s).effects
          = [Effect.input_report_key pwr KEY_POWER 1, Effect.input_sync pwr,
             Effect.pm_stay_awake pwr.parent] ∧
      (pwrkey_fall_irq irq pwr s).state
          = { report_event := s.report_event, fall_triggered := 1 }) ∧
    (s.report_event = 0 →
      (pwrkey_fall_irq irq pwr s).effects = [] ∧ (pwrkey_fall_irq irq pwr s).state = s) := by
  unfold pwrkey_fall_irq
  by_cases h : s.report_event = 0 <;> simp [h]

/-- C4: `pwrkey_rise_irq` always returns `IRQ_HANDLED`; with `fall_triggered`
non-zero it makes exactly the calls `input_report_key(pwr, KEY_POWER, 0)`,
`input_sync(pwr)`, `pm_relax(pwr->dev.parent)` and sets `fall_triggered` to 0;
with `fall_triggered` zero it makes no call and keeps both flags. It never
changes `report_event`, and its return value, its calls and the
`fall_triggered` it leaves are the same for every value of `report_event`. -/
theorem pwrkey_rise_irq_contract (irq : Int) (pwr : input_dev) (s : State) :
    (pwrkey_rise_irq irq pwr s).ret = IRQ_HANDLED ∧
    (s.fall_triggered ≠ 0 →
      (pwrkey_rise_irq irq pwr s).effects
          = [Effect.input_report_key pwr KEY_POWER 0, Effect.input_sync pwr,
             Effect.pm_relax pwr.parent] ∧
      (pwrkey_rise_irq irq pwr s).state
          = { report_event := s.report_event, fall_triggered := 0 }) ∧
    (s.fall_triggered = 0 →
      (pwrkey_rise_irq irq pwr s).effects = [] ∧ (pwrkey_rise_irq irq pwr s).state = s) ∧
    (pwrkey_rise_irq irq pwr s).state.report_event = s.report_event ∧
    (∀ r : Int,
      (pwrkey_rise_irq irq pwr { s with report_event := r }).ret
          = (pwrkey_rise_irq irq pwr s).ret ∧
      (pwrkey_rise_irq irq pwr { s with report_event := r }).effects
          = (pwrkey_rise_irq irq pwr s).effects ∧
      (pwrkey_rise_irq irq pwr { s with report_event := r }).state.fall_triggered
          = (pwrkey_rise_irq irq pwr s).state.fall_triggered ∧
      (pwrkey_rise_irq irq pwr { s with report_event := r }).state.report_event = r) := by
  unfold pwrkey_rise_irq
  by_cases h : s.fall_triggered = 0 <;> simp [h]

/-- C5: `pwrkey_skey_irq` and `pwrkey_lkey_irq` return `IRQ_HANDLED`, make no
call and keep both flags, for every state and every `irq`; inserting one of
them anywhere in a sequence of invocations, or removing all of them from it,
changes neither the calls made nor the flags left. -/
theorem key_irqs_are_noops (pwr : input_dev) (s : State) :
    (∀ irq : Int,
      pwrkey_skey_irq irq pwr s = { ret := IRQ_HANDLED, state := s, effects := [] } ∧
      pwrkey_lkey_irq irq pwr s = { ret := IRQ_HANDLED, state := s, effects := [] }) ∧
    (∀ (pre post : List Call) (irq : Int),
      runState pwr s (pre ++ Call.skey_irq irq :: post) = runState pwr s (pre ++ post) ∧
      runEffects pwr s (pre ++ Call.skey_irq irq :: post) = runEffects pwr s (pre ++ post) ∧
      runState pwr s (pre ++ Call.lkey_irq irq :: post) = runState pwr s (pre ++ post) ∧
      runEffects pwr s (pre ++ Call.lkey_irq irq :: post) = runEffects pwr s (pre ++ post)) ∧
    (∀ cs : List Call,
      runState pwr s (cs.filter (fun c => !c.isKeyNoop)) = runState pwr s cs ∧
      runEffects pwr s (cs.filter (fun c => !c.isKeyNoop)) = runEffects pwr s cs) := by
  refine ⟨fun irq => ⟨rfl, rfl⟩, ?_, ?_⟩
  · intro pre post irq
    simp [runState_append, runEffects_append, runState, runEffects, step, pwrkey_skey_irq,
      pwrkey_lkey_irq]
  · intro cs
    induction cs generalizing s with
    | nil => exact ⟨rfl, rfl⟩
    | cons c cs ih =>
      by_cases hc : c.isKeyNoop = true
      · have h := step_noop pwr s c hc
        simp [hc, runState, runEffects, h.1, h.2, ih s]
      · simp [hc, runState, runEffects, ih (step pwr s c).state]

/-- C10: `pwrk_pm_notify` returns 0, keeps `fall_triggered` and makes no call
for every mode; for a mode other than `PM_SUSPEND_PREPARE` and
`PM_POST_SUSPEND` (such as `PM_HIBERNATION_PREPARE`, `PM_POST_HIBERNATION`)
it keeps `report_event` too; and a second notification with the same mode
leaves the state the first one left. -/
theorem pwrk_pm_notify_frame (mode : Nat) (s : State) :
    (pwrk_pm_notify mode s).ret = 0 ∧
    (pwrk_pm_notify mode s).state.fall_triggered = s.fall_triggered ∧
    (pwrk_pm_notify mode s).effects = [] ∧
    (mode ≠ PM_SUSPEND_PREPARE → mode ≠ PM_POST_SUSPEND →
      (pwrk_pm_notify mode s).state = s) ∧
    (pwrk_pm_notify PM_HIBERNATION_PREPARE s).state = s ∧
    (pwrk_pm_notify PM_POST_HIBERNATION s).state = s ∧
    (pwrk_pm_notify mode (pwrk_pm_notify mode s).state).state
      = (pwrk_pm_notify mode s).state := by
  unfold pwrk_pm_notify PM_SUSPEND_PREPARE PM_POST_SUSPEND PM_HIBERNATION_PREPARE
    PM_POST_HIBERNATION
  by_cases h1 : mode = 3
  · subst h1; simp
  · by_cases h2 : mode = 4
    · subst h2; simp
    · simp [h1, h2]

/-- C2, as stated, fails: after probe, a `PM_POST_SUSPEND` notification, then
a `PM_SUSPEND_PREPARE` notification, then a fall: it is the first
`pwrkey_fall_irq` after the `PM_POST_SUSPEND` notification, and it reports
nothing. -/
theorem first_fall_after_resume_unreported :
    (∀ c ∈ [Call.pm_notify PM_SUSPEND_PREPARE], ∀ irq, c ≠ Call.fall_irq irq) ∧
    runEffects (configure rawDev)
        (runState (configure rawDev) (spacemit_pwrkey_probe okEnv samplePdev ⟨0, 0⟩).state
          ([] ++ Call.pm_notify PM_POST_SUSPEND :: [Call.pm_notify PM_SUSPEND_PREPARE]))
        [Call.fall_irq 41]
      = [] := by
  rw [probe_state]
  constructor
  · intro c hc irq
    rw [List.mem_singleton.mp hc]
    exact Call.noConfusion
  · simp [runEffects, runState, step, pwrkey_fall_irq, pwrk_pm_notify, post_ne_prepare]

/-- C2, amended: for every prior state `pwrk_pm_notify` with
`PM_SUSPEND_PREPARE` leaves `report_event = 0` and with `PM_POST_SUSPEND`
leaves `report_event = 1`, returning 0 both times; so after any history, a
`pwrkey_fall_irq` that follows a `PM_POST_SUSPEND` notification reports a
`KEY_POWER` press, provided no `PM_SUSPEND_PREPARE` notification is delivered
between the two (in particular when the fall comes directly after it). -/
theorem pwrk_pm_notify_suspend_modes (pwr : input_dev) (s : State) :
    (pwrk_pm_notify PM_SUSPEND_PREPARE s).state.report_event = 0 ∧
    (pwrk_pm_notify PM_SUSPEND_PREPARE s).ret = 0 ∧
    (pwrk_pm_notify PM_POST_SUSPEND s).state.report_event = 1 ∧
    (pwrk_pm_notify PM_POST_SUSPEND s).ret = 0 ∧
    (∀ (pre : List Call) (irq : Int),
      runEffects pwr (runState pwr s (pre ++ [Call.pm_notify PM_POST_SUSPEND]))
          [Call.fall_irq irq]
        = [Effect.input_report_key pwr KEY_POWER 1, Effect.input_sync pwr,
           Effect.pm_stay_awake pwr.parent]) ∧
    (∀ (pre mid : List Call) (irq : Int), Call.pm_notify PM_SUSPEND_PREPARE ∉ mid →
      runEffects pwr (runState pwr s (pre ++ Call.pm_notify PM_POST_SUSPEND :: mid))
          [Call.fall_irq irq]
        = [Effect.input_report_key pwr KEY_POWER 1, Effect.input_sync pwr,
           Effect.pm_stay_awake pwr.parent]) := by
  have key : ∀ (pre mid : List Call) (irq : Int), Call.pm_notify PM_SUSPEND_PREPARE ∉ mid →
      runEffects pwr (runState pwr s (pre ++ Call.pm_notify PM_POST_SUSPEND :: mid))
          [Call.fall_irq irq]
        = [Effect.input_report_key pwr KEY_POWER 1, Effect.input_sync pwr,
           Effect.pm_stay_awake pwr.parent] := by
    intro pre mid irq h
    have h1 : (runState pwr s (pre ++ Call.pm_notify PM_POST_SUSPEND :: mid)).report_event = 1 := by
      rw [runState_append]
      exact report_event_kept pwr _ mid (by simp [step, pwrk_pm_notify, PM_SUSPEND_PREPARE,
        PM_POST_SUSPEND]) h
    simp [runEffects, step, pwrkey_fall_irq, h1]
  refine ⟨?_, ?_, ?_, ?_, ?_, key⟩
  · simp [pwrk_pm_notify]
  · simp [pwrk_pm_notify]
  · simp [pwrk_pm_notify, PM_SUSPEND_PREPARE, PM_POST_SUSPEND]
  · simp [pwrk_pm_notify, PM_SUSPEND_PREPARE, PM_POST_SUSPEND]
  · intro pre irq
    exact key pre [] irq (by simp)

/-- C2, amended, at a concrete history: suspend, a fall that is not reported, resume,
a rise, then a fall, which is reported. -/
theorem pwrk_pm_notify_suspend_modes_witness :
    runEffects (configure rawDev)
        (runState (configure rawDev) { report_event := 1, fall_triggered := 0 }
          ([Call.pm_notify PM_SUSPEND_PREPARE, Call.fall_irq 41]
            ++ Call.pm_notify PM_POST_SUSPEND :: [Call.rise_irq 40]))
        [Call.fall_irq 41]
      = [Effect.input_report_key (configure rawDev) KEY_POWER 1,
         Effect.input_sync (configure rawDev),
         Effect.pm_stay_awake (configure rawDev).parent] :=
  (pwrk_pm_notify_suspend_modes (configure rawDev)
      { report_event := 1, fall_triggered := 0 }).2.2.2.2.2
    [Call.pm_notify PM_SUSPEND_PREPARE, Call.fall_irq 41] [Call.rise_irq 40] 41 (by decide)

/-- C1, as stated, fails: after probe, a fall (reported), then
`PM_SUSPEND_PREPARE`, then a rise with no `PM_POST_SUSPEND` in between: the
rise handler reports a `KEY_POWER` release while reporting is disabled. -/
theorem release_reported_while_suspended :
    Call.pm_notify PM_POST_SUSPEND ∉ [Call.rise_irq 40] ∧
    runEffects (configure rawDev)
        (runState (configure rawDev) (spacemit_pwrkey_probe okEnv samplePdev ⟨0, 0⟩).state
          ([Call.fall_irq 41] ++ [Call.pm_notify PM_SUSPEND_PREPARE]))
        [Call.rise_irq 40]
      = [Effect.input_report_key (configure rawDev) KEY_POWER 0,
         Effect.input_sync (configure rawDev),
         Effect.pm_relax (configure rawDev).parent] ∧
    ¬ (∀ e ∈ runEffects (configure rawDev)
        (runState (configure rawDev) (spacemit_pwrkey_probe okEnv samplePdev ⟨0, 0⟩).state
          ([Call.fall_irq 41] ++ [Call.pm_notify PM_SUSPEND_PREPARE]))
        [Call.rise_irq 40], e.isKeyPower = false) := by
  rw [probe_state]
  refine ⟨by decide, ?_, ?_⟩
  · simp [runEffects, runState, step, pwrkey_fall_irq, pwrkey_rise_irq, pwrk_pm_notify]
  · simp [runEffects, runState, step, pwrkey_fall_irq, pwrkey_rise_irq, pwrk_pm_notify,
      Effect.isKeyPower]

/-- C1, amended: in every sequence of invocations that starts from the state
probe leaves, the handlers invoked after a `PM_SUSPEND_PREPARE` notification
and before the next `PM_POST_SUSPEND` notification report no `KEY_POWER`
press; all they can do is the three calls of one release
(`input_report_key(pwr, KEY_POWER, 0)`, `input_sync`, `pm_relax`). -/
theorem no_press_while_suspended (env : ProbeEnv) (pdev : platform_device) (s0 : State)
    (pwr : input_dev) (pre mid : List Call)
    (h : Call.pm_notify PM_POST_SUSPEND ∉ mid) :
    (∀ e ∈ runEffects pwr
        (runState pwr (spacemit_pwrkey_probe env pdev s0).state
          (pre ++ [Call.pm_notify PM_SUSPEND_PREPARE])) mid, e.isPress = false) ∧
    (runEffects pwr
        (runState pwr (spacemit_pwrkey_probe env pdev s0).state
          (pre ++ [Call.pm_notify PM_SUSPEND_PREPARE])) mid = [] ∨
     runEffects pwr
        (runState pwr (spacemit_pwrkey_probe env pdev s0).state
          (pre ++ [Call.pm_notify PM_SUSPEND_PREPARE])) mid
       = [Effect.input_report_key pwr KEY_POWER 0, Effect.input_sync pwr,
          Effect.pm_relax pwr.parent]) := by
  have hr : (runState pwr (spacemit_pwrkey_probe env pdev s0).state
      (pre ++ [Call.pm_notify PM_SUSPEND_PREPARE])).report_event = 0 := by
    simp [runState_append, runState, step, pwrk_pm_notify]
  have hd := suspended_effects pwr _ mid hr h
  refine ⟨?_, hd⟩
  rcases hd with hd | hd <;> rw [hd] <;> simp [Effect.isPress]

/-- C1, amended, at the sequence fall, `PM_SUSPEND_PREPARE`, fall, rise. -/
theorem no_press_while_suspended_witness :
    Call.pm_notify PM_POST_SUSPEND ∉ [Call.fall_irq 41, Call.rise_irq 40] ∧
    ∀ e ∈ runEffects (configure rawDev)
        (runState (configure rawDev) (spacemit_pwrkey_probe okEnv samplePdev ⟨0, 0⟩).state
          ([Call.fall_irq 41] ++ [Call.pm_notify PM_SUSPEND_PREPARE]))
        [Call.fall_irq 41, Call.rise_irq 40], e.isPress = false :=
  ⟨by decide,
   (no_press_while_suspended okEnv samplePdev ⟨0, 0⟩ (configure rawDev) [Call.fall_irq 41]
      [Call.fall_irq 41, Call.rise_irq 40] (by decide)).1⟩

/-- C9: in every sequence of invocations that starts from the state probe
leaves, after every step `fall_triggered` is 1 exactly when the latest
`KEY_POWER` event reported is a press, and exactly when the latest
wake-source call is a `pm_stay_awake`; the events reported do not start with
a release and hold no two releases in a row; the wake-source calls do not
start with `pm_relax` and every `pm_relax` directly follows a
`pm_stay_awake`; and both flags are 0 or 1. Every step is covered, since
the sequence `cs` is arbitrary. -/
theorem flags_match_history (env : ProbeEnv) (pdev : platform_device) (s0 : State)
    (pwr : input_dev) (cs : List Call) :
    (spacemit_pwrkey_probe env pdev s0).state = { report_event := 1, fall_triggered := 0 } ∧
    runEffects pwr (spacemit_pwrkey_probe env pdev s0).state [] = [] ∧
    FlagsMatchHistory (runState pwr (spacemit_pwrkey_probe env pdev s0).state cs)
      (runEffects pwr (spacemit_pwrkey_probe env pdev s0).state cs) := by
  rw [probe_state]
  exact ⟨rfl, rfl, inv_run pwr cs⟩

/-- C6: probe returns the code of the first step that fails and makes no
kernel call after it (the log message apart): `-ENOMEM` when the allocation
returns `NULL`; the value of the first negative `platform_get_irq` (indices
0 to 3); the value of the first negative `devm_request_any_context_irq`
(rise, fall, skey, lkey); the non-zero `input_register_device`; the non-zero
`register_pm_notifier`. It returns 0 exactly when no step fails, and a value
that is 0 or negative when the two registrations fail only with negative
codes. -/
theorem probe_first_failure (env : ProbeEnv) (pdev : platform_device) (s : State) :
    (env.devm_input_allocate_device = none →
      (spacemit_pwrkey_probe env pdev s).ret = -ENOMEM ∧
      (spacemit_pwrkey_probe env pdev s).calls
        = [KCall.devm_input_allocate_device pdev.dev,
           KCall.dev_err pdev.dev "Can't allocate power button\n" none]) ∧
    (∀ raw, env.devm_input_allocate_device = some raw →
      (∀ k < 4, (∀ i < k, 0 ≤ env.platform_get_irq i) → env.platform_get_irq k < 0 →
        (spacemit_pwrkey_probe env pdev s).ret = env.platform_get_irq k ∧
        (spacemit_pwrkey_probe env pdev s).calls = (okCalls env pdev raw).take (3 + k)) ∧
      ((∀ i < 4, 0 ≤ env.platform_get_irq i) →
        (∀ k < 4, (∀ i < k, 0 ≤ env.request i) → env.request k < 0 →
          (spacemit_pwrkey_probe env pdev s).ret = env.request k ∧
          (spacemit_pwrkey_probe env pdev s).calls
            = (okCalls env pdev raw).take (7 + k)
                ++ [KCall.dev_err pdev.dev (requestErr k) (some (env.request k))]) ∧
        ((∀ i < 4, 0 ≤ env.request i) →
          (env.input_register_device ≠ 0 →
            (spacemit_pwrkey_probe env pdev s).ret = env.input_register_device ∧
            (spacemit_pwrkey_probe env pdev s).calls
              = (okCalls env pdev raw).take 11
                  ++ [KCall.dev_err pdev.dev "Can't register power button: %d\n"
                        (some env.input_register_device)]) ∧
          (env.input_register_device = 0 →
            (env.register_pm_notifier ≠ 0 →
              (spacemit_pwrkey_probe env pdev s).ret = env.register_pm_notifier ∧
              (spacemit_pwrkey_probe env pdev s).calls
                = okCalls env pdev raw
                    ++ [KCall.dev_err pdev.dev "Register pm notifier failed\n" none]) ∧
            (env.register_pm_notifier = 0 →
              (spacemit_pwrkey_probe env pdev s).ret = 0 ∧
              (spacemit_pwrkey_probe env pdev s).calls = okCalls env pdev raw))))) ∧
    ((spacemit_pwrkey_probe env pdev s).ret = 0 ↔
      ∃ raw, env.devm_input_allocate_device = some raw ∧
        (∀ i < 4, 0 ≤ env.platform_get_irq i) ∧ (∀ i < 4, 0 ≤ env.request i) ∧
        env.input_register_device = 0 ∧ env.register_pm_notifier = 0) ∧
    ((env.input_register_device ≠ 0 → env.input_register_device < 0) →
      (env.register_pm_notifier ≠ 0 → env.register_pm_notifier < 0) →
      (spacemit_pwrkey_probe env pdev s).ret ≤ 0) :=
  ⟨probe_alloc_fails env pdev s,
   fun raw ha =>
    ⟨fun k hk hok hf => probe_get_irq_fails env pdev s raw ha k hk hok hf,
     fun hg =>
      ⟨fun k hk hok hf => probe_request_fails env pdev s raw ha hg k hk hok hf,
       fun hr =>
        ⟨fun hf => probe_register_fails env pdev s raw ha hg hr hf,
         fun hi =>
          ⟨fun hf => probe_notifier_fails env pdev s raw ha hg hr hi hf,
           fun hp => probe_ok env pdev s raw ha hg hr hi hp⟩⟩⟩⟩,
   probe_ret_zero_iff env pdev s,
   probe_ret_nonpos env pdev s⟩

/-- C6, at an environment where `platform_get_irq` fails with -6 at index 1:
probe returns -6 after the allocation, the capability and two
`platform_get_irq` calls. -/
theorem probe_first_failure_witness :
    (spacemit_pwrkey_probe failEnv samplePdev ⟨0, 0⟩).ret = -6 ∧
    (spacemit_pwrkey_probe failEnv samplePdev ⟨0, 0⟩).calls
      = [KCall.devm_input_allocate_device 7,
         KCall.input_set_capability (configure rawDev) EV_KEY KEY_POWER,
         KCall.platform_get_irq 7 0,
         KCall.platform_get_irq 7 1] :=
  ((probe_first_failure failEnv samplePdev ⟨0, 0⟩).2.1 rawDev rfl).1 1 (by decide)
    (by decide) (by decide)

/-- C7: a probe that returns 0 has made exactly these kernel calls, in this
order: the allocation; `input_set_capability`; `platform_get_irq` at indices
0, 1, 2, 3; the requests of `pwrkey_rise_irq` on the IRQ of index 0,
`pwrkey_fall_irq` on that of index 1, `pwrkey_skey_irq` on that of index 2
and `pwrkey_lkey_irq` on that of index 3; `input_register_device`;
`platform_set_drvdata`; `dev_pm_set_wake_irq` with the IRQ of index 1;
`device_init_wakeup` with `true`; `spin_lock_init`; and last
`register_pm_notifier` with `pwrk_pm_notify` as the callback. -/
theorem probe_success_steps (env : ProbeEnv) (pdev : platform_device) (s : State)
    (h : (spacemit_pwrkey_probe env pdev s).ret = 0) :
    ∃ raw, env.devm_input_allocate_device = some raw ∧
      (spacemit_pwrkey_probe env pdev s).calls
        = [ KCall.devm_input_allocate_device pdev.dev,
            KCall.input_set_capability (configure raw) EV_KEY KEY_POWER,
            KCall.platform_get_irq pdev.dev 0,
            KCall.platform_get_irq pdev.dev 1,
            KCall.platform_get_irq pdev.dev 2,
            KCall.platform_get_irq pdev.dev 3,
            KCall.devm_request_any_context_irq (env.platform_get_irq 0)
              irq_handler.pwrkey_rise_irq irqflags "spacemit_pwrkey_rise" (configure raw),
            KCall.devm_request_any_context_irq (env.platform_get_irq 1)
              irq_handler.pwrkey_fall_irq irqflags "spacemit_pwrkey_fall" (configure raw),
            KCall.devm_request_any_context_irq (env.platform_get_irq 2)
              irq_handler.pwrkey_skey_irq irqflags "spacemit_pwrkey_skey" (configure raw),
            KCall.devm_request_any_context_irq (env.platform_get_irq 3)
              irq_handler.pwrkey_lkey_irq irqflags "spacemit_pwrkey_lkey" (configure raw),
            KCall.input_register_device (configure raw),
            KCall.platform_set_drvdata pdev.dev (configure raw),
            KCall.dev_pm_set_wake_irq pdev.dev (env.platform_get_irq 1),
            KCall.device_init_wakeup pdev.dev true,
            KCall.spin_lock_init,
            KCall.register_pm_notifier notifier_fn.pwrk_pm_notify ] ∧
      irq_handler.run irq_handler.pwrkey_rise_irq = pwrkey_rise_irq ∧
      irq_handler.run irq_handler.pwrkey_fall_irq = pwrkey_fall_irq ∧
      irq_handler.run irq_handler.pwrkey_skey_irq = pwrkey_skey_irq ∧
      irq_handler.run irq_handler.pwrkey_lkey_irq = pwrkey_lkey_irq ∧
      notifier_fn.run notifier_fn.pwrk_pm_notify = pwrk_pm_notify := by
  obtain ⟨raw, ha, hg, hr, hi, hp⟩ := (probe_ret_zero_iff env pdev s).mp h
  exact ⟨raw, ha, (probe_ok env pdev s raw ha hg hr hi hp).2, rfl, rfl, rfl, rfl, rfl⟩

/-- C7, at an environment where every call succeeds (IRQs 40 to 43): probe
returns 0 and the wake IRQ is 41, the one resolved at index 1. -/
theorem probe_success_steps_witness :
    (spacemit_pwrkey_probe okEnv samplePdev ⟨0, 0⟩).ret = 0 ∧
    ∃ raw, okEnv.devm_input_allocate_device = some raw ∧
      (spacemit_pwrkey_probe okEnv samplePdev ⟨0, 0⟩).calls
        = [ KCall.devm_input_allocate_device samplePdev.dev,
            KCall.input_set_capability (configure raw) EV_KEY KEY_POWER,
            KCall.platform_get_irq samplePdev.dev 0,
            KCall.platform_get_irq samplePdev.dev 1,
            KCall.platform_get_irq samplePdev.dev 2,
            KCall.platform_get_irq samplePdev.dev 3,
            KCall.devm_request_any_context_irq (okEnv.platform_get_irq 0)
              irq_handler.pwrkey_rise_irq irqflags "spacemit_pwrkey_rise" (configure raw),
            KCall.devm_request_any_context_irq (okEnv.platform_get_irq 1)
              irq_handler.pwrkey_fall_irq irqflags "spacemit_pwrkey_fall" (configure raw),
            KCall.devm_request_any_context_irq (okEnv.platform_get_irq 2)
              irq_handler.pwrkey_skey_irq irqflags "spacemit_pwrkey_skey" (configure raw),
            KCall.devm_request_any_context_irq (okEnv.platform_get_irq 3)
              irq_handler.pwrkey_lkey_irq irqflags "spacemit_pwrkey_lkey" (configure raw),
            KCall.input_register_device (configure raw),
            KCall.platform_set_drvdata samplePdev.dev (configure raw),
            KCall.dev_pm_set_wake_irq samplePdev.dev (okEnv.platform_get_irq 1),
            KCall.device_init_wakeup samplePdev.dev true,
            KCall.spin_lock_init,
            KCall.register_pm_notifier notifier_fn.pwrk_pm_notify ] ∧
      irq_handler.run irq_handler.pwrkey_rise_irq = pwrkey_rise_irq ∧
      irq_handler.run irq_handler.pwrkey_fall_irq = pwrkey_fall_irq ∧
      irq_handler.run irq_handler.pwrkey_skey_irq = pwrkey_skey_irq ∧
      irq_handler.run irq_handler.pwrkey_lkey_irq = pwrkey_lkey_irq ∧
      notifier_fn.run notifier_fn.pwrk_pm_notify = pwrk_pm_notify :=
  ⟨by decide, probe_success_steps okEnv samplePdev ⟨0, 0⟩ (by decide)⟩

/-- C8: `spacemit_pwr_key_id_table` is one entry with compatible
`"pmic,pwrkey,spm8821"` (the other fields empty) followed by the empty
sentinel, and the string-equality match against it succeeds for
`"pmic,pwrkey,spm8821"` and for no other string. -/
theorem id_table_matches_one_compatible :
    spacemit_pwr_key_id_table
      = [{ name := "", type := "", compatible := "pmic,pwrkey,spm8821" },
         { name := "", type := "", compatible := "" }] ∧
    ∀ c : String,
      tableMatches spacemit_pwr_key_id_table c = true ↔ c = "pmic,pwrkey,spm8821" := by
  refine ⟨rfl, fun c => ?_⟩
  simp [spacemit_pwr_key_id_table, tableMatches, of_device_id.empty, eq_comm]

end SpacemitPwrkey
